import Mathlib

/-!
Verification of the scuffle control-plane fragment: the video-API recording
deletion pipeline, the query-builder contract, and the platform GraphQL
authentication mutations. The Rust source is shallowly embedded: query
builders become functions producing a SQL string together with the list of
bound parameters, stateful handlers become explicit state passing, and
fallible code returns Except.
-/

namespace Scuffle

/-! ### Substring machinery over character lists -/

/-- Whether the needle occurs at the very front of the haystack. -/
def strHeadMatch : List Char → List Char → Bool
  | [], _ => true
  | _ :: _, [] => false
  | c :: n, d :: h => c == d && strHeadMatch n h

/-- Whether the needle occurs anywhere inside the haystack. -/
def strOccurs (n : List Char) : List Char → Bool
  | [] => n.isEmpty
  | d :: h => strHeadMatch n (d :: h) || strOccurs n h

/-- The SQL text contains the given clause as a contiguous substring. -/
def hasClause (sql clause : String) : Bool :=
  strOccurs clause.data sql.data

/-- Decidable equality of Except values, used to evaluate handler results on
concrete inputs. -/
def exceptDecEq [DecidableEq ε] [DecidableEq α] : DecidableEq (Except ε α)
  | Except.ok a, Except.ok b =>
    if h : a = b then Decidable.isTrue (by rw [h])
    else Decidable.isFalse (by intro hc; injection hc; exact h (by assumption))
  | Except.error a, Except.error b =>
    if h : a = b then Decidable.isTrue (by rw [h])
    else Decidable.isFalse (by intro hc; injection hc; exact h (by assumption))
  | Except.ok _, Except.error _ => Decidable.isFalse (by intro hc; cases hc)
  | Except.error _, Except.ok _ => Decidable.isFalse (by intro hc; cases hc)

instance [DecidableEq ε] [DecidableEq α] : DecidableEq (Except ε α) := exceptDecEq

theorem strHeadMatch_nil (h : List Char) : strHeadMatch [] h = true := by
  cases h <;> rfl

theorem strOccurs_nil (h : List Char) : strOccurs [] h = true := by
  induction h with
  | nil => rfl
  | cons d h ih => simp [strOccurs, strHeadMatch_nil]

theorem strHeadMatch_append (n h m : List Char) (hm : strHeadMatch n h = true) :
    strHeadMatch n (h ++ m) = true := by
  induction n generalizing h with
  | nil => exact strHeadMatch_nil _
  | cons c n ih =>
    cases h with
    | nil => simp [strHeadMatch] at hm
    | cons d h =>
      simp only [strHeadMatch, Bool.and_eq_true] at hm
      simp only [List.cons_append, strHeadMatch, Bool.and_eq_true]
      exact ⟨hm.1, ih h hm.2⟩

theorem strOccurs_append (n h m : List Char) (hm : strOccurs n h = true) :
    strOccurs n (h ++ m) = true := by
  induction h with
  | nil =>
    simp only [strOccurs, List.isEmpty_iff] at hm
    subst hm
    exact strOccurs_nil m
  | cons d h ih =>
    simp only [strOccurs, Bool.or_eq_true] at hm
    simp only [List.cons_append, strOccurs, Bool.or_eq_true]
    cases hm with
    | inl hm => exact Or.inl (strHeadMatch_append _ _ _ hm)
    | inr hm => exact Or.inr (ih hm)

/-- Modelled from the spec: the video_common Rendition discriminator — a
specific audio or video quality variant of a recording (§3, glossary); the
video_common::database module is outside this fragment. -/
inductive Rendition where
  | videoSource
  | videoHd
  | videoSd
  | videoLd
  | audioSource
deriving DecidableEq

/-- Modelled from the spec: the audio side of the audio-vs-video rendition
partition (§3). -/
def Rendition.is_audio : Rendition → Bool
  | Rendition.audioSource => true
  | _ => false

/-- Modelled from the spec: the video side of the audio-vs-video rendition
partition (§3). -/
def Rendition.is_video : Rendition → Bool
  | Rendition.audioSource => false
  | _ => true

/-- Modelled from the spec: the database sort position of a rendition, used
only for the ORDER BY recording_id, rendition stream. -/
def Rendition.rank : Rendition → Nat
  | Rendition.videoSource => 0
  | Rendition.videoHd => 1
  | Rendition.videoSd => 2
  | Rendition.videoLd => 3
  | Rendition.audioSource => 4

/-! ### The sqlx query-builder embedding

A statement is modelled as the SQL text produced by the push calls together
with the ordered list of values passed to push_bind; the n-th bound value is
rendered as the placeholder $n in the text, as the Postgres driver does. -/

namespace Sql

/-- A value bound into a parameterized statement. -/
inductive SqlParam where
  | ulid (u : Nat)
  | ulidList (ids : List Nat)
  | natParam (n : Nat)
  | renditionList (rs : List Rendition)
  | policyList (ps : List Nat)
  | tagsJson (ts : List (String × String))
deriving DecidableEq

structure QueryBuilder where
  sql : String
  params : List SqlParam
deriving DecidableEq

def QueryBuilder.start : QueryBuilder := { sql := "", params := [] }

def QueryBuilder.push (qb : QueryBuilder) (s : String) : QueryBuilder :=
  { qb with sql := qb.sql ++ s }

def QueryBuilder.push_bind (qb : QueryBuilder) (v : SqlParam) : QueryBuilder :=
  { sql := qb.sql ++ ("$" ++ toString (qb.params.length + 1)),
    params := qb.params ++ [v] }

/-- sqlx Separated: pushes after the first are preceded by the separator;
the unseparated variants append without touching the separator state. -/
structure Separated where
  qb : QueryBuilder
  sep : String
  pushed : Bool
deriving DecidableEq

def Separated.push (s : Separated) (text : String) : Separated :=
  if s.pushed then { s with qb := (s.qb.push s.sep).push text }
  else { s with qb := s.qb.push text, pushed := true }

def Separated.push_bind_unseparated (s : Separated) (v : SqlParam) : Separated :=
  { s with qb := s.qb.push_bind v }

def Separated.push_unseparated (s : Separated) (text : String) : Separated :=
  { s with qb := s.qb.push text }

/-- One builder state extends another: the later one appends SQL text and
parameters to the earlier one. -/
def QbExt (a b : QueryBuilder) : Prop :=
  (∃ t, b.sql.data = a.sql.data ++ t) ∧ (∃ ps, b.params = a.params ++ ps)

theorem qbExt_refl (a : QueryBuilder) : QbExt a a :=
  ⟨⟨[], by simp⟩, ⟨[], by simp⟩⟩

theorem qbExt_trans {a b c : QueryBuilder} (h1 : QbExt a b) (h2 : QbExt b c) :
    QbExt a c := by
  obtain ⟨⟨t1, ht1⟩, ⟨p1, hp1⟩⟩ := h1
  obtain ⟨⟨t2, ht2⟩, ⟨p2, hp2⟩⟩ := h2
  exact ⟨⟨t1 ++ t2, by rw [ht2, ht1, List.append_assoc]⟩,
    ⟨p1 ++ p2, by rw [hp2, hp1, List.append_assoc]⟩⟩

theorem qbExt_push (a : QueryBuilder) (s : String) : QbExt a (a.push s) :=
  ⟨⟨s.data, rfl⟩, ⟨[], by simp [QueryBuilder.push]⟩⟩

theorem qbExt_push_bind (a : QueryBuilder) (v : SqlParam) :
    QbExt a (a.push_bind v) :=
  ⟨⟨("$" ++ toString (a.params.length + 1)).data, rfl⟩, ⟨[v], rfl⟩⟩

theorem qbExt_sep_push (s : Separated) (text : String) :
    QbExt s.qb (s.push text).qb := by
  unfold Separated.push
  by_cases h : s.pushed = true
  · simp only [h, if_true]
    exact qbExt_trans (qbExt_push _ _) (qbExt_push _ _)
  · simp only [Bool.not_eq_true] at h
    simp only [h, Bool.false_eq_true, if_false]
    exact qbExt_push _ _

theorem qbExt_sep_push_bind_unseparated (s : Separated) (v : SqlParam) :
    QbExt s.qb (s.push_bind_unseparated v).qb :=
  qbExt_push_bind _ _

theorem qbExt_sep_push_unseparated (s : Separated) (text : String) :
    QbExt s.qb (s.push_unseparated text).qb :=
  qbExt_push _ _

theorem hasClause_of_qbExt {a b : QueryBuilder} (c : String)
    (h : hasClause a.sql c = true) (he : QbExt a b) : hasClause b.sql c = true := by
  obtain ⟨⟨t, ht⟩, _⟩ := he
  unfold hasClause at h ⊢
  rw [ht]
  exact strOccurs_append _ _ _ h

theorem params_head_of_qbExt {a b : QueryBuilder} {v : SqlParam}
    (h : a.params = [v]) (he : QbExt a b) : b.params.head? = some v := by
  obtain ⟨_, ⟨ps, hp⟩⟩ := he
  rw [hp, h]
  rfl

end Sql

namespace Video

open Sql

/-- Modelled from the spec: the tonic gRPC status codes used by the video
API handlers (§6 error mapping); the tonic crate is outside this fragment. -/
inductive StatusCode where
  | invalidArgument
  | notFound
  | internal
deriving DecidableEq

structure Status where
  code : StatusCode
  message : String
deriving DecidableEq

def Status.invalid_argument (m : String) : Status :=
  { code := StatusCode.invalidArgument, message := m }

def Status.not_found (m : String) : Status :=
  { code := StatusCode.notFound, message := m }

def Status.internal (m : String) : Status :=
  { code := StatusCode.internal, message := m }

/-- Modelled from the spec: DatabaseTable::NAME constants for the tables of
§6; video_common::database is outside this fragment. -/
def recordingsTable : String := "recordings"

def playbackSessionsTable : String := "playback_sessions"

def recordingRenditionsTable : String := "recording_renditions"

def recordingThumbnailsTable : String := "recording_thumbnails"

def recordingRenditionSegmentsTable : String := "recording_rendition_segments"

def recordingConfigsTable : String := "recording_configs"

def s3BucketsTable : String := "s3_buckets"

def playbackKeyPairsTable : String := "playback_key_pairs"

namespace Delete

/-! The five statements built by RecordingDeleteRequest::process, in the
order the source pushes their fragments. -/

def softDeleteQuery (ids : List Nat) (org : Nat) : QueryBuilder :=
  ((((((((QueryBuilder.start.push "UPDATE ").push recordingsTable).push
    " SET deleted_at = NOW(), room_id = NULL, recording_config_id = NULL").push
    " WHERE id = ANY(").push_bind (SqlParam.ulidList ids)).push
    ") AND organization_id = ").push_bind (SqlParam.ulid org)).push
    " AND deleted_at IS NULL").push
    " RETURNING id, s3_bucket_id"

def playbackSessionsDeleteQuery (deleted_ids : List Nat) (org : Nat) : QueryBuilder :=
  ((((QueryBuilder.start.push "DELETE FROM ").push playbackSessionsTable).push
    " WHERE recording_id = ANY(").push_bind (SqlParam.ulidList deleted_ids)).push
    ") AND organization_id = " |>.push_bind (SqlParam.ulid org)

def recordingRenditionsDeleteQuery (deleted_ids : List Nat) : QueryBuilder :=
  ((((QueryBuilder.start.push "DELETE FROM ").push recordingRenditionsTable).push
    " WHERE recording_id = ANY(").push_bind (SqlParam.ulidList deleted_ids)).push ")"

def recordingThumbnailsSelectQuery (deleted_ids : List Nat) : QueryBuilder :=
  ((((QueryBuilder.start.push "SELECT id, recording_id, idx, FROM ").push
    recordingThumbnailsTable).push
    " WHERE recording_id = ANY(").push_bind (SqlParam.ulidList deleted_ids)).push
    ") ORDER BY recording_id"

def recordingRenditionSegmentsSelectQuery (deleted_ids : List Nat) : QueryBuilder :=
  ((((QueryBuilder.start.push "SELECT id, recording_id, rendition, idx FROM ").push
    recordingRenditionSegmentsTable).push
    " WHERE recording_id = ANY(").push_bind (SqlParam.ulidList deleted_ids)).push
    ") ORDER BY recording_id, rendition"

/-! The cleanup fan-out: streamed rows, the batch accumulator, and the
publish loop translated from handle_resp / publish_batch /
handle_end_of_stream. -/

structure ThumbnailResp where
  recording_id : Nat
  thumbnail_id : Nat
  idx : Int
deriving DecidableEq

structure SegmentResp where
  recording_id : Nat
  segment_id : Nat
  idx : Int
  rendition : Rendition
deriving DecidableEq

inductive ObjectTypes where
  | thumbnails
  | segments (rendition : Rendition)
deriving DecidableEq

structure BatchObject where
  index : Int
  object_id : Option Nat
deriving DecidableEq

structure RecordingDeleteBatchTask where
  recording_id : Option Nat
  s3_bucket_id : Option Nat
  object_types : Option ObjectTypes
  objects : List BatchObject
deriving DecidableEq

/-- pb UlidExt::to_ulid: a missing protobuf Ulid decodes to the nil ulid. -/
def optUlid (o : Option Nat) : Nat := o.getD 0

/-- A streamed row handed to the UpdateBatch trait. -/
inductive RespRow where
  | thumb (t : ThumbnailResp)
  | seg (s : SegmentResp)
deriving DecidableEq

def is_same_batch : RespRow → RecordingDeleteBatchTask → Bool
  | RespRow.thumb t, b =>
    optUlid b.recording_id == t.recording_id
      && (match b.object_types with
          | some ObjectTypes.thumbnails => true
          | _ => false)
  | RespRow.seg s, b =>
    optUlid b.recording_id == s.recording_id
      && b.object_types == some (ObjectTypes.segments s.rendition)

def update_batch (deleted_recordings : Nat → Nat) :
    RespRow → RecordingDeleteBatchTask → RecordingDeleteBatchTask
  | RespRow.thumb t, _ =>
    { recording_id := some t.recording_id,
      s3_bucket_id := some (deleted_recordings t.recording_id),
      object_types := some ObjectTypes.thumbnails,
      objects := [] }
  | RespRow.seg s, _ =>
    { recording_id := some s.recording_id,
      s3_bucket_id := some (deleted_recordings s.recording_id),
      object_types := some (ObjectTypes.segments s.rendition),
      objects := [] }

def to_object : RespRow → BatchObject
  | RespRow.thumb t => { index := t.idx, object_id := some t.thumbnail_id }
  | RespRow.seg s => { index := s.idx, object_id := some s.segment_id }

/-- A batch with an empty objects list is not sent on the bus. -/
def publish_batch (published : List RecordingDeleteBatchTask)
    (batch : RecordingDeleteBatchTask) : List RecordingDeleteBatchTask :=
  if batch.objects.isEmpty then published else published ++ [batch]

def handle_resp (deleted_recordings : Nat → Nat)
    (published : List RecordingDeleteBatchTask) (batch : RecordingDeleteBatchTask)
    (resp : RespRow) : List RecordingDeleteBatchTask × RecordingDeleteBatchTask :=
  if is_same_batch resp batch then
    (published, { batch with objects := batch.objects ++ [to_object resp] })
  else
    let published := publish_batch published batch
    let batch := update_batch deleted_recordings resp batch
    (published, { batch with objects := batch.objects ++ [to_object resp] })

def emptyBatch : RecordingDeleteBatchTask :=
  { recording_id := none, s3_bucket_id := none, object_types := none, objects := [] }

def handle_end_of_stream (published : List RecordingDeleteBatchTask)
    (batch : RecordingDeleteBatchTask) :
    List RecordingDeleteBatchTask × RecordingDeleteBatchTask :=
  (publish_batch published batch, emptyBatch)

def runStream (deleted_recordings : Nat → Nat) (rows : List RespRow)
    (st : List RecordingDeleteBatchTask × RecordingDeleteBatchTask) :
    List RecordingDeleteBatchTask × RecordingDeleteBatchTask :=
  rows.foldl (fun st r => handle_resp deleted_recordings st.1 st.2 r) st

/-- The allowed_to_fail cleanup closure: stream thumbnail rows, flush, stream
segment rows, flush; returns the batches published on the bus. -/
def allowed_to_fail (deleted_recordings : Nat → Nat)
    (thumb_rows : List ThumbnailResp) (seg_rows : List SegmentResp) :
    List RecordingDeleteBatchTask :=
  let st := runStream deleted_recordings (thumb_rows.map RespRow.thumb) ([], emptyBatch)
  let st := handle_end_of_stream st.1 st.2
  let st := runStream deleted_recordings (seg_rows.map RespRow.seg) st
  (handle_end_of_stream st.1 st.2).1

/-! The RecordingDelete handler itself: the id guards, the transactional
soft delete, the dependent-row purges, and the cleanup fan-out, as a function
of the request ids, the access token's organization id, and a relational
model of the database. -/

structure RecordingRow where
  id : Nat
  organization_id : Nat
  deleted : Bool
  room_id : Option Nat
  recording_config_id : Option Nat
  s3_bucket_id : Nat
deriving DecidableEq

structure PlaybackSessionRow where
  id : Nat
  recording_id : Nat
  organization_id : Nat
deriving DecidableEq

structure RenditionRow where
  recording_id : Nat
  rendition : Rendition
deriving DecidableEq

structure Db where
  recordings : List RecordingRow
  playback_sessions : List PlaybackSessionRow
  recording_renditions : List RenditionRow
  recording_thumbnails : List ThumbnailResp
  recording_rendition_segments : List SegmentResp
deriving DecidableEq

structure FailedResource where
  id : Option Nat
  reason : String
deriving DecidableEq

structure RecordingDeleteResponse where
  ids : List Nat
  failed_deletes : List FailedResource
deriving DecidableEq

def insertSorted (le : α → α → Bool) (a : α) : List α → List α
  | [] => [a]
  | b :: l => if le a b then a :: b :: l else b :: insertSorted le a l

def sortRows (le : α → α → Bool) : List α → List α
  | [] => []
  | a :: l => insertSorted le a (sortRows le l)

def thumbLe (a b : ThumbnailResp) : Bool :=
  decide (a.recording_id ≤ b.recording_id)

def segLe (a b : SegmentResp) : Bool :=
  decide (a.recording_id < b.recording_id)
    || (a.recording_id == b.recording_id && decide (a.rendition.rank ≤ b.rendition.rank))

/-- The grouping key a streamed cleanup row carries: its recording id and its
object-type discriminant (Thumbnails, or Segments of one rendition). -/
def rowKey : RespRow → Nat × ObjectTypes
  | RespRow.thumb t => (t.recording_id, ObjectTypes.thumbnails)
  | RespRow.seg s => (s.recording_id, ObjectTypes.segments s.rendition)

/-- A published batch is well-formed with respect to the streamed rows: its
objects list is non-empty, it carries a single recording id and a single
object-type discriminant, and each of its objects comes from a streamed row
with exactly that key. -/
def batchWellFormed (rows : List RespRow) (b : RecordingDeleteBatchTask) : Prop :=
  b.objects ≠ [] ∧ ∃ rid t, b.recording_id = some rid ∧ b.object_types = some t ∧
    ∀ o ∈ b.objects, ∃ r, r ∈ rows ∧ rowKey r = (rid, t) ∧ to_object r = o

/-- Invariant of the batch accumulator between streamed rows: a headerless
batch is empty, and a headed batch holds only objects of rows carrying its
header key. -/
def accInv (rows : List RespRow) (b : RecordingDeleteBatchTask) : Prop :=
  (b.object_types = none → b.objects = []) ∧
  (∀ t, b.object_types = some t → ∃ rid, b.recording_id = some rid ∧
    ∀ o ∈ b.objects, ∃ r, r ∈ rows ∧ rowKey r = (rid, t) ∧ to_object r = o)

/-- The WHERE predicate of the soft-delete UPDATE: the row is among the
requested ids, belongs to the token's organization, and is not yet
soft-deleted. -/
def recordingHit (ids_to_delete : List Nat) (org : Nat) (r : RecordingRow) : Bool :=
  decide (r.id ∈ ids_to_delete) && r.organization_id == org && !r.deleted

/-- The recordings rows the soft-delete UPDATE matches and returns. -/
def deleted_rows_of (req_ids : List Nat) (org : Nat) (db : Db) : List RecordingRow :=
  db.recordings.filter (recordingHit req_ids.dedup org)

/-- The RETURNING ids of the soft-delete UPDATE. -/
def deleted_ids_of (req_ids : List Nat) (org : Nat) (db : Db) : List Nat :=
  (deleted_rows_of req_ids org db).map (fun r => r.id)

/-- The requested ids left over after removing every returned id. -/
def failed_ids_of (req_ids : List Nat) (org : Nat) (db : Db) : List Nat :=
  req_ids.dedup.filter (fun i => !(decide (i ∈ deleted_ids_of req_ids org db)))

/-- The response body built at the end of process. -/
def deleteResponse (req_ids : List Nat) (org : Nat) (db : Db) : RecordingDeleteResponse :=
  { ids := deleted_ids_of req_ids org db
    failed_deletes := (failed_ids_of req_ids org db).map (fun i =>
      { id := some i, reason := "recording not found" }) }

/-- RecordingDeleteRequest::process. The result is the gRPC response, the
database state after the transaction, and the batches published on the bus. -/
def process (req_ids : List Nat) (org : Nat) (db : Db) :
    Except Status RecordingDeleteResponse × Db × List RecordingDeleteBatchTask :=
  if 100 < req_ids.length then
    (Except.error (Status.invalid_argument "too many ids provided for delete: max 100"), db, [])
  else if req_ids.isEmpty then
    (Except.error (Status.invalid_argument "no ids provided for delete"), db, [])
  else
    let deleted_rows := deleted_rows_of req_ids org db
    let deleted_ids := deleted_ids_of req_ids org db
    let db2 : Db :=
      { recordings := db.recordings.map (fun r =>
          if recordingHit req_ids.dedup org r then
            { r with deleted := true, room_id := none, recording_config_id := none }
          else r)
        playback_sessions := db.playback_sessions.filter (fun p =>
          !(decide (p.recording_id ∈ deleted_ids) && p.organization_id == org))
        recording_renditions := db.recording_renditions.filter (fun r =>
          !(decide (r.recording_id ∈ deleted_ids)))
        recording_thumbnails := db.recording_thumbnails
        recording_rendition_segments := db.recording_rendition_segments }
    let deleted_recordings : Nat → Nat := fun rid =>
      (Option.map (fun r => r.s3_bucket_id) (deleted_rows.find? (fun r => r.id == rid))).getD 0
    let thumb_rows := sortRows thumbLe
      (db.recording_thumbnails.filter (fun t => decide (t.recording_id ∈ deleted_ids)))
    let seg_rows := sortRows segLe
      (db.recording_rendition_segments.filter (fun s => decide (s.recording_id ∈ deleted_ids)))
    let published := allowed_to_fail deleted_recordings thumb_rows seg_rows
    (Except.ok (deleteResponse req_ids org db), db2, published)

end Delete

namespace Get

/-! The shared Get query-builder cycle (s3_bucket/get.rs and
playback_key_pair/get.rs) over the common filter helpers of §4.5. -/

structure SearchOptions where
  limit : Nat
  after_id : Option Nat
  reverse : Bool
deriving DecidableEq

/-- Modelled from the spec: the common filter helper organization_id(binder,
org), always applied (§4.5); the get utils module is outside this fragment. -/
def get_organization_id (s : Separated) (org : Nat) : Separated :=
  (s.push "organization_id = ").push_bind_unseparated (SqlParam.ulid org)

/-- Modelled from the spec: the common filter helper ids(binder, ids) — id =
ANY(...) when provided, omitted if empty (§4.5). -/
def get_ids (s : Separated) (ids : List Nat) : Separated :=
  if ids.isEmpty then s
  else ((s.push "id = ANY(").push_bind_unseparated (SqlParam.ulidList ids)).push_unseparated ")"

/-- Modelled from the spec: the common filter helper search_options(binder,
opts) — pagination (cursor + limit) and ordering; invalid combinations
surface InvalidArgument (§4.5). -/
def get_search_options (s : Separated) (opts : Option SearchOptions) :
    Except Status Separated :=
  match opts with
  | none => Except.ok s
  | some o =>
    if 1000 < o.limit then Except.error (Status.invalid_argument "limit too large")
    else
      let s := match o.after_id with
        | none => s
        | some c => (s.push "id > ").push_bind_unseparated (SqlParam.ulid c)
      let s := { s with qb := ((s.qb.push
          (if o.reverse then " ORDER BY id DESC" else " ORDER BY id ASC")).push
          " LIMIT ").push_bind (SqlParam.natParam o.limit) }
      Except.ok s

/-- The SELECT * FROM table WHERE prefix both Get builders start from,
with the AND-separated filter binder. -/
def getBase (table : String) : Separated :=
  { qb := ((QueryBuilder.start.push "SELECT * FROM ").push table).push " WHERE ",
    sep := " AND ", pushed := false }

/-- The shared remainder of both Get builders after the organization filter:
the ids filter and the search options. -/
def get_query_tail (sep : Separated) (ids : List Nat) (opts : Option SearchOptions) :
    Except Status QueryBuilder :=
  let sep := get_ids sep ids
  match get_search_options sep opts with
  | Except.error e => Except.error e
  | Except.ok sep => Except.ok sep.qb

/-- S3BucketGetRequest::build_query. -/
def s3_bucket_get_query (org : Nat) (ids : List Nat) (opts : Option SearchOptions) :
    Except Status QueryBuilder :=
  get_query_tail (get_organization_id (getBase s3BucketsTable) org) ids opts

/-- PlaybackKeyPairGetRequest::build_query. -/
def playback_key_pair_get_query (org : Nat) (ids : List Nat)
    (opts : Option SearchOptions) : Except Status QueryBuilder :=
  get_query_tail (get_organization_id (getBase playbackKeyPairsTable) org) ids opts

end Get

namespace Modify

/-! recording_config/modify.rs: build_query and the single-row response
shaping. -/

structure RecordingConfigModifyRequest where
  id : Nat
  stored_renditions : Option (List Rendition)
  lifecycle_policies : Option (List Nat)
  tags : Option (List (String × String))
deriving DecidableEq

/-- Modelled from the spec: validate_tags enforces the configured per-row tag
count and per-tag key/value length maxima, surfacing InvalidArgument (§4.7,
§6 configuration); the tags utils module is outside this fragment. -/
def validate_tags (max_tags max_key_len max_value_len : Nat)
    (tags : Option (List (String × String))) : Except Status Unit :=
  match tags with
  | none => Except.ok ()
  | some ts =>
    if max_tags < ts.length then
      Except.error (Status.invalid_argument "too many tags")
    else if ts.any (fun kv => max_key_len < kv.1.length || max_value_len < kv.2.length) then
      Except.error (Status.invalid_argument "tag key or value too long")
    else Except.ok ()

/-- The tail of build_query once the rendition guards have passed: the
lifecycle-policy and tag SET fragments, the updated_at touch, and the
tenant-scoped WHERE clause with RETURNING *. -/
def buildQueryRest (sep : Separated) (req : RecordingConfigModifyRequest) (org : Nat) :
    Except Status QueryBuilder :=
  let sep := match req.lifecycle_policies with
    | none => sep
    | some ps => (sep.push "lifecycle_policies = ").push_bind_unseparated
        (SqlParam.policyList ps)
  let sep := match req.tags with
    | none => sep
    | some ts => (sep.push "tags = ").push_bind_unseparated
        (SqlParam.tagsJson ts)
  let sep := sep.push "updated_at = NOW()"
  let qb := ((((sep.qb.push " WHERE id = ").push_bind (SqlParam.ulid req.id)).push
    " AND organization_id = ").push_bind (SqlParam.ulid org)).push " RETURNING *"
  Except.ok qb

/-- RecordingConfigModifyRequest::build_query. -/
def build_query (max_tags max_key_len max_value_len : Nat)
    (req : RecordingConfigModifyRequest) (org : Nat) : Except Status QueryBuilder :=
  match validate_tags max_tags max_key_len max_value_len req.tags with
  | Except.error e => Except.error e
  | Except.ok _ =>
    let qb := ((QueryBuilder.start.push "UPDATE ").push recordingConfigsTable).push " SET "
    let sep : Separated := { qb := qb, sep := ",", pushed := false }
    match req.stored_renditions with
    | some rs =>
      let renditions := rs.dedup
      if !(renditions.any Rendition.is_audio) then
        Except.error (Status.invalid_argument "must specify at least one audio rendition")
      else if !(renditions.any Rendition.is_video) then
        Except.error (Status.invalid_argument "must specify at least one video rendition")
      else
        buildQueryRest
          ((sep.push "renditions = ").push_bind_unseparated
            (SqlParam.renditionList renditions))
          req org
    | none => buildQueryRest sep req org

structure RecordingConfig where
  id : Nat
  organization_id : Nat
deriving DecidableEq

/-- Modelled from the spec: into_proto converts a database row field-for-field
into its protobuf counterpart; the conversion lives outside this fragment and
is represented as the identity on the row. -/
def RecordingConfig.into_proto (c : RecordingConfig) : RecordingConfig := c

structure RecordingConfigModifyResponse where
  recording_config : Option RecordingConfig
deriving DecidableEq

/-- RecordingConfigModifyResponse::from_query_object. -/
def from_query_object (query_object : List RecordingConfig) :
    Except Status RecordingConfigModifyResponse :=
  if query_object.isEmpty then
    Except.error (Status.not_found "recording config not found")
  else if 1 < query_object.length then
    Except.error (Status.internal
      ("failed to modify recording config, " ++ toString query_object.length ++ " rows returned"))
  else
    Except.ok { recording_config := query_object.head?.map RecordingConfig.into_proto }

end Modify

end Video

namespace Platform

/-! platform/api v1 GraphQL auth mutations (auth.rs), with the process-wide
collaborators (captcha, loaders, JWT codec, AuthData resolution) passed in as
explicit inputs. -/

inductive GqlError where
  | invalidInput (fields : List String) (message : String)
  | notLoggedIn
  | invalidSession
  | internalServerError (message : String)
deriving DecidableEq

/-- A users row as the auth mutations see it. The password hash lives outside
this fragment, so the stored credential is abstracted as the predicate of
candidate passwords the constant-time verify accepts (§4.2). -/
structure User where
  id : Nat
  verify_password : String → Bool

/-- A user_sessions row. -/
structure SessionRow where
  id : Nat
  user_id : Nat
  expires_at : Int
  last_used_at : Int
deriving DecidableEq

/-- Modelled from the spec: the Session validity invariant is_valid ⇔ now <
expires_at (§3); the database::Session type is outside this fragment. -/
def SessionRow.is_valid (now : Int) (s : SessionRow) : Bool :=
  decide (now < s.expires_at)

/-- The per-connection AuthData slot contents (§4.3). -/
structure AuthData where
  session : SessionRow
  user_roles : List Nat
  user_permissions : Nat
deriving DecidableEq

/-- The GraphQL Session DTO returned by the auth mutations. -/
structure SessionDto where
  id : Nat
  token : String
  user_id : Nat
  expires_at : Int
  last_used_at : Int
  user : Option User

/-- The inputs the login handler consumes: the captcha verdict, the
user-by-username loader result, the raw credentials, the optional
validity/update_context arguments, the clock, the fresh session id, the JWT
serialization result, and the AuthData resolution result. -/
structure LoginInput where
  captcha_ok : Bool
  user_load : Except String (Option User)
  password : String
  validity : Option Nat
  update_context : Option Bool
  now : Int
  new_session_id : Nat
  jwt_token : Option String
  auth_data : Except String AuthData

/-- AuthMutation::login over the connection's AuthData slot. -/
def login (i : LoginInput) (ctx : Option AuthData) :
    Except GqlError SessionDto × Option AuthData :=
  if !i.captcha_ok then
    (Except.error (GqlError.invalidInput ["captchaToken"] "capcha token is invalid"), ctx)
  else
    match i.user_load with
    | Except.error m => (Except.error (GqlError.internalServerError m), ctx)
    | Except.ok none =>
      (Except.error (GqlError.invalidInput ["username", "password"]
        "invalid username or password"), ctx)
    | Except.ok (some user) =>
      if !(user.verify_password i.password) then
        (Except.error (GqlError.invalidInput ["username", "password"]
          "invalid username or password"), ctx)
      else
        let login_duration := i.validity.getD (60 * 60 * 24 * 7)
        let expires_at := i.now + (login_duration : Int)
        let session : SessionRow :=
          { id := i.new_session_id, user_id := user.id,
            expires_at := expires_at, last_used_at := i.now }
        match i.jwt_token with
        | none => (Except.error (GqlError.internalServerError "failed to serialize JWT"), ctx)
        | some token =>
          let dto : Option User → SessionDto := fun u =>
            { id := session.id, token := token, user_id := session.user_id,
              expires_at := session.expires_at, last_used_at := session.last_used_at,
              user := u }
          if i.update_context.getD true then
            match i.auth_data with
            | Except.error e => (Except.error (GqlError.internalServerError e), ctx)
            | Except.ok ad => (Except.ok (dto (some user)), some ad)
          else (Except.ok (dto none), ctx)

/-- AuthMutation::login_with_token. claims is the JwtState::verify outcome
(the signed session id, or none when the signature does not verify); the
session-store UPDATE ... RETURNING * is run against db at time now. Returns
the result, the updated user_sessions rows, and the AuthData slot. -/
def login_with_token (claims : Option Nat) (db : List SessionRow) (now : Int)
    (update_context : Option Bool) (auth_data : Except String AuthData)
    (session_token : String) (ctx : Option AuthData) :
    Except GqlError SessionDto × List SessionRow × Option AuthData :=
  match claims with
  | none =>
    (Except.error (GqlError.invalidInput ["sessionToken"] "invalid session token"), db, ctx)
  | some sid =>
    let db2 := db.map (fun r => if r.id == sid then { r with last_used_at := now } else r)
    match db.find? (fun r => r.id == sid) with
    | none =>
      (Except.error (GqlError.invalidInput ["sessionToken"] "invalid session token"), db2, ctx)
    | some row =>
      let session := { row with last_used_at := now }
      if !(session.is_valid now) then
        (Except.error GqlError.invalidSession, db2, ctx)
      else if update_context.getD true then
        match auth_data with
        | Except.error e => (Except.error (GqlError.internalServerError e), db2, ctx)
        | Except.ok ad =>
          (Except.ok
            { id := session.id, token := session_token, user_id := session.user_id,
              expires_at := session.expires_at, last_used_at := session.last_used_at,
              user := none }, db2, some ad)
      else
        (Except.ok
          { id := session.id, token := session_token, user_id := session.user_id,
            expires_at := session.expires_at, last_used_at := session.last_used_at,
            user := none }, db2, ctx)

/-- AuthMutation::logout. verify is the JwtState::verify outcome per supplied
token string. Returns the result, the AuthData slot after the call, and the
user_sessions rows after the DELETE. -/
def logout (verify : String → Option Nat) (session_token : Option String)
    (ctx : Option AuthData) (db : List SessionRow) :
    Except GqlError Bool × Option AuthData × List SessionRow :=
  let sid : Except GqlError Nat :=
    match session_token with
    | some t =>
      match verify t with
      | none => Except.error (GqlError.invalidInput ["sessionToken"] "invalid session token")
      | some sid => Except.ok sid
    | none =>
      match ctx with
      | none => Except.error GqlError.notLoggedIn
      | some a => Except.ok a.session.id
  match sid with
  | Except.error e => (Except.error e, ctx, db)
  | Except.ok sid =>
    let db2 := db.filter (fun r => !(r.id == sid))
    if session_token.isNone then (Except.ok true, none, db2)
    else (Except.ok true, ctx, db2)

end Platform

/-! ## Claim theorems -/

/-- C2: for every pair of login calls sharing a passing captcha — one whose
username loader finds no user, the other finding a user whose password check
fails — the returned error values are identical: kind InvalidInput, fields
["username", "password"], message "invalid username or password". -/
theorem c2_login_error_indistinguishable (i1 i2 : Platform.LoginInput)
    (ctx1 ctx2 : Option Platform.AuthData) (u : Platform.User)
    (h1 : i1.captcha_ok = true) (h2 : i2.captcha_ok = true)
    (hu1 : i1.user_load = Except.ok none) (hu2 : i2.user_load = Except.ok (some u))
    (hpw : u.verify_password i2.password = false) :
    (Platform.login i1 ctx1).1
        = Except.error (Platform.GqlError.invalidInput ["username", "password"]
            "invalid username or password")
    ∧ (Platform.login i2 ctx2).1
        = Except.error (Platform.GqlError.invalidInput ["username", "password"]
            "invalid username or password") := by
  constructor
  · simp [Platform.login, h1, hu1]
  · simp [Platform.login, h2, hu2, hpw]

theorem c2_witness :
    (Platform.login
        { captcha_ok := true, user_load := Except.ok none, password := "pw",
          validity := none, update_context := none, now := 0, new_session_id := 1,
          jwt_token := some "tok",
          auth_data := Except.ok
            { session := { id := 1, user_id := 1, expires_at := 1, last_used_at := 0 },
              user_roles := [], user_permissions := 0 } }
        none).1
      = Except.error (Platform.GqlError.invalidInput ["username", "password"]
          "invalid username or password")
    ∧ (Platform.login
        { captcha_ok := true,
          user_load := Except.ok (some { id := 7, verify_password := fun _ => false }),
          password := "guess", validity := none, update_context := none, now := 0,
          new_session_id := 1, jwt_token := some "tok",
          auth_data := Except.ok
            { session := { id := 1, user_id := 1, expires_at := 1, last_used_at := 0 },
              user_roles := [], user_permissions := 0 } }
        none).1
      = Except.error (Platform.GqlError.invalidInput ["username", "password"]
          "invalid username or password") :=
  c2_login_error_indistinguishable _ _ none none
    { id := 7, verify_password := fun _ => false } rfl rfl rfl rfl rfl

/-- C5 (code bug): the thumbnail cleanup SELECT built by the deletion
pipeline carries a trailing comma before FROM — the built statement is
exactly this string, not the corrected projection the spec prescribes. -/
theorem c5_thumbnail_projection_trailing_comma :
    (Video.Delete.recordingThumbnailsSelectQuery [1]).sql
      = "SELECT id, recording_id, idx, FROM recording_thumbnails WHERE recording_id = ANY($1) ORDER BY recording_id"
    ∧ hasClause (Video.Delete.recordingThumbnailsSelectQuery [1]).sql ", FROM " = true := by
  constructor
  · rfl
  · rfl

/-- C6: loginWithToken fails with InvalidInput{fields:[sessionToken]} when
the token signature does not verify and when the claims name no session row;
when the row exists (its last_used_at refreshed) but is no longer valid it
fails with InvalidSession; in each failure case no Session DTO is
returned. -/
theorem c6_login_with_token_failures (db : List Platform.SessionRow) (now : Int)
    (uc : Option Bool) (ad : Except String Platform.AuthData) (tok : String)
    (ctx : Option Platform.AuthData) :
    ((Platform.login_with_token none db now uc ad tok ctx).1
        = Except.error (Platform.GqlError.invalidInput ["sessionToken"]
            "invalid session token"))
    ∧ (∀ sid, db.find? (fun r => r.id == sid) = none →
        (Platform.login_with_token (some sid) db now uc ad tok ctx).1
          = Except.error (Platform.GqlError.invalidInput ["sessionToken"]
              "invalid session token"))
    ∧ (∀ sid row, db.find? (fun r => r.id == sid) = some row →
        Platform.SessionRow.is_valid now { row with last_used_at := now } = false →
        (Platform.login_with_token (some sid) db now uc ad tok ctx).1
            = Except.error Platform.GqlError.invalidSession
        ∧ (Platform.login_with_token (some sid) db now uc ad tok ctx).2.1
            = db.map (fun r => if r.id == sid then { r with last_used_at := now } else r)) := by
  refine ⟨rfl, ?_, ?_⟩
  · intro sid h
    simp [Platform.login_with_token, h]
  · intro sid row h hv
    constructor
    · simp [Platform.login_with_token, h, hv]
    · simp [Platform.login_with_token, h, hv]

theorem c6_witness :
    ((Platform.login_with_token none
        [{ id := 5, user_id := 1, expires_at := 10, last_used_at := 0 }] 20 none
        (Except.error "unused") "t" none).1
      = Except.error (Platform.GqlError.invalidInput ["sessionToken"]
          "invalid session token"))
    ∧ ((Platform.login_with_token (some 6)
        [{ id := 5, user_id := 1, expires_at := 10, last_used_at := 0 }] 20 none
        (Except.error "unused") "t" none).1
      = Except.error (Platform.GqlError.invalidInput ["sessionToken"]
          "invalid session token"))
    ∧ ((Platform.login_with_token (some 5)
        [{ id := 5, user_id := 1, expires_at := 10, last_used_at := 0 }] 20 none
        (Except.error "unused") "t" none).1
      = Except.error Platform.GqlError.invalidSession) :=
  ⟨(c6_login_with_token_failures
      [{ id := 5, user_id := 1, expires_at := 10, last_used_at := 0 }] 20 none
      (Except.error "unused") "t" none).1,
   (c6_login_with_token_failures
      [{ id := 5, user_id := 1, expires_at := 10, last_used_at := 0 }] 20 none
      (Except.error "unused") "t" none).2.1 6 rfl,
   ((c6_login_with_token_failures
      [{ id := 5, user_id := 1, expires_at := 10, last_used_at := 0 }] 20 none
      (Except.error "unused") "t" none).2.2 5
      { id := 5, user_id := 1, expires_at := 10, last_used_at := 0 } rfl rfl).1⟩

/-- C7 (counterexample): logging out the connection's current session through
an explicitly supplied token whose claims name that session returns true but
leaves the AuthData slot set — reset_auth is not called in that case. -/
theorem c7_counterexample :
    Platform.logout (fun _ => some 5) (some "tok")
        (some { session := { id := 5, user_id := 1, expires_at := 100, last_used_at := 0 },
                user_roles := [], user_permissions := 0 })
        [{ id := 5, user_id := 1, expires_at := 100, last_used_at := 0 }]
      = (Except.ok true,
         some { session := { id := 5, user_id := 1, expires_at := 100, last_used_at := 0 },
                user_roles := [], user_permissions := 0 },
         []) := rfl

/-- C7 (amended): when no token is supplied — the call logs out the
connection's current session — the AuthData slot is cleared via reset_auth
before logout returns true, and the session row is deleted. -/
theorem c7_logout_without_token_clears_auth (verify : String → Option Nat)
    (a : Platform.AuthData) (db : List Platform.SessionRow) :
    Platform.logout verify none (some a) db
      = (Except.ok true, none, db.filter (fun r => !(r.id == a.session.id))) := rfl

/-- C8: shaping the Modify row-set obeys the single-row contract — zero rows
yields NotFound, more than one yields Internal, exactly one row yields a
successful response containing that row. -/
theorem c8_modify_row_shape (rows : List Video.Modify.RecordingConfig) :
    (rows = [] →
      Video.Modify.from_query_object rows
        = Except.error (Video.Status.not_found "recording config not found"))
    ∧ (∀ r, rows = [r] →
      Video.Modify.from_query_object rows
        = Except.ok { recording_config := some (Video.Modify.RecordingConfig.into_proto r) })
    ∧ (1 < rows.length →
      Video.Modify.from_query_object rows
        = Except.error (Video.Status.internal
            ("failed to modify recording config, " ++ toString rows.length
              ++ " rows returned"))) := by
  refine ⟨?_, ?_, ?_⟩
  · intro h
    subst h
    rfl
  · intro r h
    subst h
    rfl
  · intro h
    have hne : rows.isEmpty = false := by
      cases rows with
      | nil => simp at h
      | cons a t => rfl
    simp [Video.Modify.from_query_object, hne, h]

theorem c8_witness :
    Video.Modify.from_query_object [{ id := 1, organization_id := 2 }]
      = Except.ok { recording_config := some { id := 1, organization_id := 2 } } :=
  (c8_modify_row_shape [{ id := 1, organization_id := 2 }]).2.1
    { id := 1, organization_id := 2 } rfl

theorem get_ids_ext (s : Sql.Separated) (ids : List Nat) :
    Sql.QbExt s.qb (Video.Get.get_ids s ids).qb := by
  unfold Video.Get.get_ids
  split
  · exact Sql.qbExt_refl _
  · exact Sql.qbExt_trans (Sql.qbExt_sep_push _ _)
      (Sql.qbExt_trans (Sql.qbExt_sep_push_bind_unseparated _ _)
        (Sql.qbExt_sep_push_unseparated _ _))

theorem get_search_options_ext (s : Sql.Separated) (opts : Option Video.Get.SearchOptions)
    (s2 : Sql.Separated) (h : Video.Get.get_search_options s opts = Except.ok s2) :
    Sql.QbExt s.qb s2.qb := by
  cases opts with
  | none =>
    injection h with h
    subst h
    exact Sql.qbExt_refl _
  | some o =>
    unfold Video.Get.get_search_options at h
    by_cases hl : 1000 < o.limit
    · simp [hl] at h
    · simp only [hl, if_false] at h
      injection h with h
      subst h
      refine Sql.qbExt_trans (b := (match o.after_id with
        | none => s
        | some c => (s.push "id > ").push_bind_unseparated (Sql.SqlParam.ulid c)).qb) ?_ ?_
      · cases o.after_id with
        | none => exact Sql.qbExt_refl _
        | some c =>
          exact Sql.qbExt_trans (Sql.qbExt_sep_push _ _)
            (Sql.qbExt_sep_push_bind_unseparated _ _)
      · exact Sql.qbExt_trans (Sql.qbExt_push _ _)
          (Sql.qbExt_trans (Sql.qbExt_push _ _) (Sql.qbExt_push_bind _ _))

theorem get_query_tail_ext (sep : Sql.Separated) (ids : List Nat)
    (opts : Option Video.Get.SearchOptions) (qb : Sql.QueryBuilder)
    (h : Video.Get.get_query_tail sep ids opts = Except.ok qb) :
    Sql.QbExt sep.qb qb := by
  cases hso : Video.Get.get_search_options (Video.Get.get_ids sep ids) opts with
  | error e =>
    simp [Video.Get.get_query_tail, hso] at h
  | ok s2 =>
    simp only [Video.Get.get_query_tail, hso] at h
    injection h with h
    subst h
    exact Sql.qbExt_trans (get_ids_ext sep ids) (get_search_options_ext _ _ _ hso)

/-- C1 (amended): the soft-delete UPDATE, the playback_sessions DELETE, and
every successfully built Get statement carry the tenant-scoping clause
organization_id = $n with the access token's organization id bound at $n;
the recording_renditions DELETE and the thumbnail/segment cleanup SELECTs
instead filter only by recording ids already restricted to the
organization. -/
theorem c1_tenant_scoping_amended :
    (∀ ids org,
      hasClause (Video.Delete.softDeleteQuery ids org).sql "organization_id = $2" = true
      ∧ (Video.Delete.softDeleteQuery ids org).params
          = [Sql.SqlParam.ulidList ids, Sql.SqlParam.ulid org])
    ∧ (∀ ids org,
      hasClause (Video.Delete.playbackSessionsDeleteQuery ids org).sql
          "organization_id = $2" = true
      ∧ (Video.Delete.playbackSessionsDeleteQuery ids org).params
          = [Sql.SqlParam.ulidList ids, Sql.SqlParam.ulid org])
    ∧ (∀ org ids opts qb, Video.Get.s3_bucket_get_query org ids opts = Except.ok qb →
        hasClause qb.sql "organization_id = $1" = true
        ∧ qb.params.head? = some (Sql.SqlParam.ulid org))
    ∧ (∀ org ids opts qb, Video.Get.playback_key_pair_get_query org ids opts = Except.ok qb →
        hasClause qb.sql "organization_id = $1" = true
        ∧ qb.params.head? = some (Sql.SqlParam.ulid org)) := by
  refine ⟨?_, ?_, ?_, ?_⟩
  · intro ids org
    refine ⟨?_, rfl⟩
    have h : (Video.Delete.softDeleteQuery ids org).sql
        = (Video.Delete.softDeleteQuery [] 0).sql := rfl
    rw [h]
    rfl
  · intro ids org
    refine ⟨?_, rfl⟩
    have h : (Video.Delete.playbackSessionsDeleteQuery ids org).sql
        = (Video.Delete.playbackSessionsDeleteQuery [] 0).sql := rfl
    rw [h]
    rfl
  · intro org ids opts qb h
    have hext := get_query_tail_ext _ _ _ _ h
    refine ⟨Sql.hasClause_of_qbExt _ ?_ hext, Sql.params_head_of_qbExt rfl hext⟩
    have hb : (Video.Get.get_organization_id (Video.Get.getBase Video.s3BucketsTable) org).qb.sql
        = (Video.Get.get_organization_id (Video.Get.getBase Video.s3BucketsTable) 0).qb.sql := rfl
    rw [hb]
    rfl
  · intro org ids opts qb h
    have hext := get_query_tail_ext _ _ _ _ h
    refine ⟨Sql.hasClause_of_qbExt _ ?_ hext, Sql.params_head_of_qbExt rfl hext⟩
    have hb : (Video.Get.get_organization_id (Video.Get.getBase Video.playbackKeyPairsTable) org).qb.sql
        = (Video.Get.get_organization_id (Video.Get.getBase Video.playbackKeyPairsTable) 0).qb.sql := rfl
    rw [hb]
    rfl

theorem c1_witness :
    (hasClause (Video.Delete.softDeleteQuery [3] 7).sql "organization_id = $2" = true)
    ∧ (∃ qb, Video.Get.s3_bucket_get_query 7 [] none = Except.ok qb
        ∧ hasClause qb.sql "organization_id = $1" = true)
    ∧ (∃ qb, Video.Get.playback_key_pair_get_query 7 [] none = Except.ok qb
        ∧ hasClause qb.sql "organization_id = $1" = true) :=
  ⟨(c1_tenant_scoping_amended.1 [3] 7).1,
   ⟨{ sql := "SELECT * FROM s3_buckets WHERE organization_id = $1",
      params := [Sql.SqlParam.ulid 7] }, rfl,
     (c1_tenant_scoping_amended.2.2.1 7 [] none _ rfl).1⟩,
   ⟨{ sql := "SELECT * FROM playback_key_pairs WHERE organization_id = $1",
      params := [Sql.SqlParam.ulid 7] }, rfl,
     (c1_tenant_scoping_amended.2.2.2 7 [] none _ rfl).1⟩⟩

/-- C1 (counterexample): the recording_renditions DELETE and the
thumbnail/segment cleanup SELECTs issued while processing a
RecordingDeleteRequest contain no organization_id clause at all. -/
theorem c1_counterexample :
    hasClause (Video.Delete.recordingRenditionsDeleteQuery [1]).sql "organization_id" = false
    ∧ hasClause (Video.Delete.recordingThumbnailsSelectQuery [1]).sql "organization_id" = false
    ∧ hasClause (Video.Delete.recordingRenditionSegmentsSelectQuery [1]).sql
        "organization_id" = false :=
  ⟨rfl, rfl, rfl⟩

theorem validate_tags_error_code (max_tags max_key_len max_value_len : Nat)
    (tags : Option (List (String × String))) (e : Video.Status)
    (h : Video.Modify.validate_tags max_tags max_key_len max_value_len tags
      = Except.error e) : e.code = Video.StatusCode.invalidArgument := by
  cases tags with
  | none => cases h
  | some ts =>
    simp only [Video.Modify.validate_tags] at h
    split at h
    · injection h with h
      subst h
      rfl
    · split at h
      · injection h with h
        subst h
        rfl
      · cases h

/-- C10: whenever stored_renditions is present and its deduplicated set lacks
an audio rendition or lacks a video rendition, build_query returns
InvalidArgument and no SQL statement is produced. -/
theorem c10_modify_rendition_guard (max_tags max_key_len max_value_len : Nat)
    (req : Video.Modify.RecordingConfigModifyRequest) (org : Nat) (rs : List Rendition)
    (hrs : req.stored_renditions = some rs)
    (hbad : rs.dedup.any Rendition.is_audio = false
      ∨ rs.dedup.any Rendition.is_video = false) :
    ∃ m, Video.Modify.build_query max_tags max_key_len max_value_len req org
      = Except.error { code := Video.StatusCode.invalidArgument, message := m } := by
  cases hvt : Video.Modify.validate_tags max_tags max_key_len max_value_len req.tags with
  | error e =>
    obtain ⟨c, m⟩ := e
    have hc : c = Video.StatusCode.invalidArgument :=
      validate_tags_error_code _ _ _ _ _ hvt
    subst hc
    exact ⟨m, by simp [Video.Modify.build_query, hvt]⟩
  | ok u =>
    by_cases ha : rs.dedup.any Rendition.is_audio = true
    · have hv : rs.dedup.any Rendition.is_video = false := by
        cases hbad with
        | inl hb => rw [ha] at hb; cases hb
        | inr hb => exact hb
      exact ⟨"must specify at least one video rendition",
        by simp [Video.Modify.build_query, Video.Status.invalid_argument, hvt, hrs, ha, hv]⟩
    · have ha2 : rs.dedup.any Rendition.is_audio = false := by
        cases hax : rs.dedup.any Rendition.is_audio with
        | false => rfl
        | true => exact absurd hax ha
      exact ⟨"must specify at least one audio rendition",
        by simp [Video.Modify.build_query, Video.Status.invalid_argument, hvt, hrs, ha2]⟩

theorem c10_witness :
    (Video.Modify.RecordingConfigModifyRequest.stored_renditions
        { id := 1, stored_renditions := some [Rendition.videoHd],
          lifecycle_policies := none, tags := none }
      = some [Rendition.videoHd])
    ∧ (∃ m, Video.Modify.build_query 10 64 256
        { id := 1, stored_renditions := some [Rendition.videoHd],
          lifecycle_policies := none, tags := none } 7
      = Except.error { code := Video.StatusCode.invalidArgument, message := m }) :=
  ⟨rfl, c10_modify_rendition_guard 10 64 256
    { id := 1, stored_renditions := some [Rendition.videoHd],
      lifecycle_policies := none, tags := none } 7 [Rendition.videoHd] rfl
    (Or.inl (by decide))⟩

section DeletePipeline

open Video.Delete

theorem batchWellFormed_mono (rows more : List RespRow) (b : RecordingDeleteBatchTask)
    (h : batchWellFormed rows b) : batchWellFormed (rows ++ more) b := by
  obtain ⟨hne, rid, t, hrid, hot, hobj⟩ := h
  refine ⟨hne, rid, t, hrid, hot, ?_⟩
  intro o ho
  obtain ⟨r, hr, hk, hto⟩ := hobj o ho
  exact ⟨r, List.mem_append_left _ hr, hk, hto⟩

theorem accInv_emptyBatch (rows : List RespRow) : accInv rows emptyBatch :=
  ⟨fun _ => rfl, fun _ ht => nomatch ht⟩

theorem publish_batch_inv (rows : List RespRow) (pubs : List RecordingDeleteBatchTask)
    (b : RecordingDeleteBatchTask)
    (hp : ∀ p ∈ pubs, batchWellFormed rows p) (hb : accInv rows b) :
    ∀ p ∈ publish_batch pubs b, batchWellFormed rows p := by
  intro p hmem
  unfold publish_batch at hmem
  by_cases he : b.objects.isEmpty = true
  · rw [if_pos he] at hmem
    exact hp p hmem
  · rw [if_neg he] at hmem
    rcases List.mem_append.mp hmem with h | h
    · exact hp p h
    · have hpb : p = b := by simpa using h
      subst hpb
      have hne : p.objects ≠ [] := by
        intro hcon
        rw [hcon] at he
        exact he rfl
      cases hot : p.object_types with
      | none => exact absurd (hb.1 hot) hne
      | some t =>
        obtain ⟨rid, hrid, hobj⟩ := hb.2 t hot
        exact ⟨hne, rid, t, hrid, hot, hobj⟩

theorem handle_resp_inv (dmap : Nat → Nat) (rows : List RespRow)
    (pubs : List RecordingDeleteBatchTask) (b : RecordingDeleteBatchTask) (r : RespRow)
    (hp : ∀ p ∈ pubs, batchWellFormed rows p) (hb : accInv rows b) :
    (∀ p ∈ (handle_resp dmap pubs b r).1, batchWellFormed (rows ++ [r]) p)
    ∧ accInv (rows ++ [r]) (handle_resp dmap pubs b r).2 := by
  cases hs : is_same_batch r b with
  | true =>
    have hres : handle_resp dmap pubs b r
        = (pubs, { b with objects := b.objects ++ [to_object r] }) := by
      unfold handle_resp
      rw [if_pos hs]
    rw [hres]
    constructor
    · intro p hmem
      exact batchWellFormed_mono rows [r] p (hp p hmem)
    · cases r with
      | thumb t =>
        simp only [is_same_batch, Bool.and_eq_true, beq_iff_eq] at hs
        have hot : b.object_types = some ObjectTypes.thumbnails := by
          rcases hbt : b.object_types with _ | ot
          · rw [hbt] at hs
            exact absurd hs.2 (by simp)
          · cases ot with
            | thumbnails => rfl
            | segments rd =>
              rw [hbt] at hs
              exact absurd hs.2 (by simp)
        obtain ⟨rid, hbr, hobj⟩ := hb.2 _ hot
        have hre : rid = t.recording_id := by
          have h := hs.1
          rw [hbr] at h
          simpa [optUlid] using h
        constructor
        · intro hcon
          have hcon2 : b.object_types = none := hcon
          rw [hot] at hcon2
          cases hcon2
        · intro t2 ht2
          have ht2b : b.object_types = some t2 := ht2
          rw [hot] at ht2b
          injection ht2b with ht2b
          subst ht2b
          refine ⟨rid, hbr, ?_⟩
          intro o ho
          have ho2 : o ∈ b.objects ++ [to_object (RespRow.thumb t)] := ho
          rcases List.mem_append.mp ho2 with hOld | hNew
          · obtain ⟨rr, hrr, hk, hto⟩ := hobj o hOld
            exact ⟨rr, List.mem_append_left _ hrr, hk, hto⟩
          · have hoe : o = to_object (RespRow.thumb t) := by simpa using hNew
            subst hoe
            refine ⟨RespRow.thumb t, List.mem_append_right _ (by simp), ?_, rfl⟩
            simp [rowKey, hre]
      | seg s =>
        simp only [is_same_batch, Bool.and_eq_true, beq_iff_eq] at hs
        have hot : b.object_types = some (ObjectTypes.segments s.rendition) := hs.2
        obtain ⟨rid, hbr, hobj⟩ := hb.2 _ hot
        have hre : rid = s.recording_id := by
          have h := hs.1
          rw [hbr] at h
          simpa [optUlid] using h
        constructor
        · intro hcon
          have hcon2 : b.object_types = none := hcon
          rw [hot] at hcon2
          cases hcon2
        · intro t2 ht2
          have ht2b : b.object_types = some t2 := ht2
          rw [hot] at ht2b
          injection ht2b with ht2b
          subst ht2b
          refine ⟨rid, hbr, ?_⟩
          intro o ho
          have ho2 : o ∈ b.objects ++ [to_object (RespRow.seg s)] := ho
          rcases List.mem_append.mp ho2 with hOld | hNew
          · obtain ⟨rr, hrr, hk, hto⟩ := hobj o hOld
            exact ⟨rr, List.mem_append_left _ hrr, hk, hto⟩
          · have hoe : o = to_object (RespRow.seg s) := by simpa using hNew
            subst hoe
            refine ⟨RespRow.seg s, List.mem_append_right _ (by simp), ?_, rfl⟩
            simp [rowKey, hre]
  | false =>
    have hres : handle_resp dmap pubs b r
        = (publish_batch pubs b,
           { update_batch dmap r b with
              objects := (update_batch dmap r b).objects ++ [to_object r] }) := by
      unfold handle_resp
      rw [if_neg (by simp [hs])]
    rw [hres]
    constructor
    · intro p hmem
      exact batchWellFormed_mono rows [r] p (publish_batch_inv rows pubs b hp hb p hmem)
    · cases r with
      | thumb t =>
        constructor
        · intro hcon
          have hcon2 : some ObjectTypes.thumbnails = (none : Option ObjectTypes) := hcon
          cases hcon2
        · intro t2 ht2
          have ht2b : some ObjectTypes.thumbnails = some t2 := ht2
          injection ht2b with ht2b
          subst ht2b
          refine ⟨t.recording_id, rfl, ?_⟩
          intro o ho
          have ho2 : o ∈ ([] : List BatchObject) ++ [to_object (RespRow.thumb t)] := ho
          have hoe : o = to_object (RespRow.thumb t) := by simpa using ho2
          subst hoe
          exact ⟨RespRow.thumb t, List.mem_append_right _ (by simp), by simp [rowKey], rfl⟩
      | seg s =>
        constructor
        · intro hcon
          have hcon2 : some (ObjectTypes.segments s.rendition) = (none : Option ObjectTypes) := hcon
          cases hcon2
        · intro t2 ht2
          have ht2b : some (ObjectTypes.segments s.rendition) = some t2 := ht2
          injection ht2b with ht2b
          subst ht2b
          refine ⟨s.recording_id, rfl, ?_⟩
          intro o ho
          have ho2 : o ∈ ([] : List BatchObject) ++ [to_object (RespRow.seg s)] := ho
          have hoe : o = to_object (RespRow.seg s) := by simpa using ho2
          subst hoe
          exact ⟨RespRow.seg s, List.mem_append_right _ (by simp), by simp [rowKey], rfl⟩

theorem runStream_inv (dmap : Nat → Nat) (rows : List RespRow) (processed : List RespRow)
    (pubs : List RecordingDeleteBatchTask) (b : RecordingDeleteBatchTask)
    (hp : ∀ p ∈ pubs, batchWellFormed processed p) (hb : accInv processed b) :
    (∀ p ∈ (runStream dmap rows (pubs, b)).1, batchWellFormed (processed ++ rows) p)
    ∧ accInv (processed ++ rows) (runStream dmap rows (pubs, b)).2 := by
  induction rows generalizing processed pubs b with
  | nil =>
    rw [List.append_nil]
    exact ⟨hp, hb⟩
  | cons r rest ih =>
    have hstep := handle_resp_inv dmap processed pubs b r hp hb
    have hrec := ih (processed ++ [r]) (handle_resp dmap pubs b r).1
      (handle_resp dmap pubs b r).2 hstep.1 hstep.2
    have heq : runStream dmap (r :: rest) (pubs, b)
        = runStream dmap rest (handle_resp dmap pubs b r) := by
      simp [runStream]
    rw [heq, show processed ++ r :: rest = (processed ++ [r]) ++ rest by simp]
    exact hrec

/-- C3: every batch that the recording deletion pipeline publishes on the
message bus has a non-empty objects list and a single recording id and
object-type discriminant, each object coming from a streamed row of that
key; an empty batch is never published. -/
theorem c3_published_batches_wellformed (dmap : Nat → Nat)
    (thumb_rows : List ThumbnailResp) (seg_rows : List SegmentResp)
    (b : RecordingDeleteBatchTask)
    (hmem : b ∈ allowed_to_fail dmap thumb_rows seg_rows) :
    batchWellFormed (thumb_rows.map RespRow.thumb ++ seg_rows.map RespRow.seg) b := by
  have h1 := runStream_inv dmap (thumb_rows.map RespRow.thumb) [] [] emptyBatch
    (fun p hp => absurd hp (List.not_mem_nil p)) (accInv_emptyBatch [])
  rw [List.nil_append] at h1
  have h2 := publish_batch_inv _ _ _ h1.1 h1.2
  have h3 := runStream_inv dmap (seg_rows.map RespRow.seg) (thumb_rows.map RespRow.thumb)
    (publish_batch (runStream dmap (thumb_rows.map RespRow.thumb) ([], emptyBatch)).1
      (runStream dmap (thumb_rows.map RespRow.thumb) ([], emptyBatch)).2)
    emptyBatch h2 (accInv_emptyBatch _)
  have h4 := publish_batch_inv _ _ _ h3.1 h3.2
  apply h4
  simpa [allowed_to_fail, handle_end_of_stream] using hmem

theorem c3_witness :
    (({ recording_id := some 1, s3_bucket_id := some 5,
        object_types := some ObjectTypes.thumbnails,
        objects := [{ index := 0, object_id := some 10 }, { index := 1, object_id := some 11 }] }
      : RecordingDeleteBatchTask)
      ∈ allowed_to_fail (fun _ => 5)
        [{ recording_id := 1, thumbnail_id := 10, idx := 0 },
         { recording_id := 1, thumbnail_id := 11, idx := 1 },
         { recording_id := 2, thumbnail_id := 12, idx := 0 }]
        [{ recording_id := 1, segment_id := 20, idx := 0, rendition := Rendition.audioSource }])
    ∧ batchWellFormed
        (List.map RespRow.thumb
          [{ recording_id := 1, thumbnail_id := 10, idx := 0 },
           { recording_id := 1, thumbnail_id := 11, idx := 1 },
           { recording_id := 2, thumbnail_id := 12, idx := 0 }]
          ++ List.map RespRow.seg
            [{ recording_id := 1, segment_id := 20, idx := 0, rendition := Rendition.audioSource }])
        { recording_id := some 1, s3_bucket_id := some 5,
          object_types := some ObjectTypes.thumbnails,
          objects := [{ index := 0, object_id := some 10 }, { index := 1, object_id := some 11 }] } :=
  ⟨by decide, c3_published_batches_wellformed (fun _ => 5) _ _ _ (by decide)⟩

end DeletePipeline

theorem length_filter_split (p : α → Bool) (l : List α) :
    (l.filter p).length + (l.filter (fun a => !(p a))).length = l.length := by
  induction l with
  | nil => rfl
  | cons a t ih =>
    cases hpa : p a with
    | true =>
      simp only [List.filter_cons, hpa, Bool.not_true, if_true, if_false,
        Bool.false_eq_true, List.length_cons]
      omega
    | false =>
      simp only [List.filter_cons, hpa, Bool.not_false, if_true, if_false,
        Bool.false_eq_true, List.length_cons]
      omega

theorem deleted_ids_subset (req_ids : List Nat) (org : Nat) (db : Video.Delete.Db) :
    ∀ x, x ∈ Video.Delete.deleted_ids_of req_ids org db → x ∈ req_ids.dedup := by
  intro x hx
  simp only [Video.Delete.deleted_ids_of, Video.Delete.deleted_rows_of, List.mem_map] at hx
  obtain ⟨r, hr, hid⟩ := hx
  rw [List.mem_filter] at hr
  have hhit := hr.2
  simp only [Video.Delete.recordingHit, Bool.and_eq_true, decide_eq_true_eq] at hhit
  exact hid ▸ hhit.1.1

theorem deleted_ids_nodup (req_ids : List Nat) (org : Nat) (db : Video.Delete.Db)
    (hnodup : (db.recordings.map (fun r => r.id)).Nodup) :
    (Video.Delete.deleted_ids_of req_ids org db).Nodup := by
  have hsl : List.Sublist ((Video.Delete.deleted_rows_of req_ids org db).map (fun r => r.id))
      (db.recordings.map (fun r => r.id)) :=
    List.Sublist.map _ (List.filter_sublist db.recordings)
  exact hnodup.sublist hsl

/-- C4 (amended): for every successfully processed RecordingDeleteRequest,
|response.ids| + |response.failed_deletes| equals the number of distinct
requested ids, the succeeded and failed id sets are disjoint, and every
failed entry carries reason "recording not found". (The database primary key
makes the recordings ids unique.) -/
theorem c4_delete_partition_amended (req_ids : List Nat) (org : Nat)
    (db : Video.Delete.Db) (resp : Video.Delete.RecordingDeleteResponse)
    (hnodup : (db.recordings.map (fun r => r.id)).Nodup)
    (hok : (Video.Delete.process req_ids org db).1 = Except.ok resp) :
    resp.ids.length + resp.failed_deletes.length = req_ids.dedup.length
    ∧ (∀ i ∈ resp.ids, ∀ f ∈ resp.failed_deletes, f.id ≠ some i)
    ∧ (∀ f ∈ resp.failed_deletes, f.reason = "recording not found") := by
  by_cases h1 : 100 < req_ids.length
  · simp [Video.Delete.process, h1] at hok
  · by_cases h2 : req_ids.isEmpty = true
    · simp [Video.Delete.process, h1, h2] at hok
    · have hre : resp = Video.Delete.deleteResponse req_ids org db := by
        simp [Video.Delete.process, h1, h2] at hok
        exact hok.symm
      subst hre
      have hDn := deleted_ids_nodup req_ids org db hnodup
      have hsub := deleted_ids_subset req_ids org db
      refine ⟨?_, ?_, ?_⟩
      · have hKn : (req_ids.dedup.filter
            (fun i => decide (i ∈ Video.Delete.deleted_ids_of req_ids org db))).Nodup :=
          (List.nodup_dedup req_ids).filter _
        have hfin : (req_ids.dedup.filter
              (fun i => decide (i ∈ Video.Delete.deleted_ids_of req_ids org db))).toFinset
            = (Video.Delete.deleted_ids_of req_ids org db).toFinset := by
          ext x
          simp only [List.mem_toFinset, List.mem_filter, decide_eq_true_eq]
          exact ⟨fun h => h.2, fun h => ⟨hsub x h, h⟩⟩
        have hlen : (req_ids.dedup.filter
              (fun i => decide (i ∈ Video.Delete.deleted_ids_of req_ids org db))).length
            = (Video.Delete.deleted_ids_of req_ids org db).length := by
          rw [← List.toFinset_card_of_nodup hKn, ← List.toFinset_card_of_nodup hDn, hfin]
        have hsplit := length_filter_split
          (fun i => decide (i ∈ Video.Delete.deleted_ids_of req_ids org db)) req_ids.dedup
        simp only [Video.Delete.deleteResponse, Video.Delete.failed_ids_of, List.length_map]
        rw [← hlen]
        exact hsplit
      · intro i hi f hf
        simp only [Video.Delete.deleteResponse, List.mem_map] at hf
        obtain ⟨j, hj, hfj⟩ := hf
        simp only [Video.Delete.deleteResponse] at hi
        rw [Video.Delete.failed_ids_of, List.mem_filter] at hj
        have hj2 : ¬(j ∈ Video.Delete.deleted_ids_of req_ids org db) := by
          have := hj.2
          simp only [Bool.not_eq_true', decide_eq_false_iff_not] at this
          exact this
        subst hfj
        simp only [ne_eq, Option.some.injEq]
        intro hcon
        exact hj2 (hcon ▸ hi)
      · intro f hf
        simp only [Video.Delete.deleteResponse, List.mem_map] at hf
        obtain ⟨j, hj, hfj⟩ := hf
        subst hfj
        rfl

theorem c4_witness :
    (([1, 2, 3] : List Nat).dedup.length = 3)
    ∧ ((Video.Delete.process [1, 2, 3] 9
          { recordings :=
              [{ id := 1, organization_id := 9, deleted := false, room_id := none,
                 recording_config_id := none, s3_bucket_id := 5 },
               { id := 2, organization_id := 9, deleted := false, room_id := none,
                 recording_config_id := none, s3_bucket_id := 5 }],
            playback_sessions := [], recording_renditions := [],
            recording_thumbnails := [], recording_rendition_segments := [] }).1
        = Except.ok { ids := [1, 2], failed_deletes := [{ id := some 3, reason := "recording not found" }] })
    ∧ (([1, 2] : List Nat).length
        + [({ id := some 3, reason := "recording not found" } : Video.Delete.FailedResource)].length
        = ([1, 2, 3] : List Nat).dedup.length) :=
  ⟨by decide, by decide,
    (c4_delete_partition_amended [1, 2, 3] 9
      { recordings :=
          [{ id := 1, organization_id := 9, deleted := false, room_id := none,
             recording_config_id := none, s3_bucket_id := 5 },
           { id := 2, organization_id := 9, deleted := false, room_id := none,
             recording_config_id := none, s3_bucket_id := 5 }],
        playback_sessions := [], recording_renditions := [],
        recording_thumbnails := [], recording_rendition_segments := [] }
      { ids := [1, 2],
        failed_deletes := [{ id := some 3, reason := "recording not found" }] }
      (by decide) (by decide)).1⟩

/-- C4 (counterexample): a request repeating the same id is processed
successfully, but |response.ids| + |response.failed_deletes| is the number of
distinct ids, not the length of the request's ids list. -/
theorem c4_counterexample :
    ((Video.Delete.process [7, 7] 1
        { recordings :=
            [{ id := 7, organization_id := 1, deleted := false, room_id := none,
               recording_config_id := none, s3_bucket_id := 3 }],
          playback_sessions := [], recording_renditions := [],
          recording_thumbnails := [], recording_rendition_segments := [] }).1
      = Except.ok { ids := [7], failed_deletes := [] })
    ∧ ¬(([7] : List Nat).length + ([] : List Video.Delete.FailedResource).length
        = ([7, 7] : List Nat).length) := by decide

/-- C9: a RecordingDeleteRequest with an empty ids list is rejected with
InvalidArgument "no ids provided for delete" before any database transaction:
the database state is untouched and nothing is published. -/
theorem c9_empty_ids_rejected_before_transaction (org : Nat) (db : Video.Delete.Db) :
    Video.Delete.process [] org db
      = (Except.error (Video.Status.invalid_argument "no ids provided for delete"), db, []) := rfl

end Scuffle
